import Mathlib

/-!
Verification of the `prctl` Python extension module (src/prctlmodule.c).

The module is a thin wrapper over the Linux `prctl` syscall: a static
option table, a bounds check on the option index, a get path that decodes
a zero-initialized buffer per option, and a set path that marshals the
Python value per option.  We embed the module shallowly: the external
syscall is an oracle (`Kernel`), and each embedded function returns both
its Python-level result and the list of syscall events it performed, so
that claims of the form "no syscall is performed" and "the syscall is
issued with these arguments" are statable.
-/

namespace Prctl

/-- Kernel option codes from the platform header <sys/prctl.h>
(numeric values as on Linux; the module passes them through verbatim). -/
def PR_SET_PDEATHSIG : Int := 1

def PR_GET_PDEATHSIG : Int := 2

def PR_GET_DUMPABLE : Int := 3

def PR_SET_DUMPABLE : Int := 4

def PR_GET_UNALIGN : Int := 5

def PR_SET_UNALIGN : Int := 6

def PR_GET_KEEPCAPS : Int := 7

def PR_SET_KEEPCAPS : Int := 8

def PR_GET_FPEMU : Int := 9

def PR_SET_FPEMU : Int := 10

def PR_GET_FPEXC : Int := 11

def PR_SET_FPEXC : Int := 12

def PR_GET_TIMING : Int := 13

def PR_SET_TIMING : Int := 14

def PR_SET_NAME : Int := 15

def PR_GET_NAME : Int := 16

def PR_GET_ENDIAN : Int := 19

def PR_SET_ENDIAN : Int := 20

/-- Option indices, as the `#define`s of prctlmodule.c lines 67-74. -/
def PR_PDEATHSIG : Nat := 0

def PR_DUMPABLE : Nat := 1

def PR_UNALIGN : Nat := 2

def PR_KEEPCAPS : Nat := 3

def PR_FPEMU : Nat := 4

def PR_FPEXC : Nat := 5

def PR_TIMING : Nat := 6

def PR_NAME : Nat := 7

/-- The optional ninth entry, present when the platform header defines
PR_GET_ENDIAN (prctlmodule.c lines 79-83).  The whole development is
parametrized by the flag `endian : Bool` standing for that `#ifdef`. -/
def PR_ENDIAN : Nat := 8

def MIN_ENTRY : Nat := PR_PDEATHSIG

def MAX_ENTRY (endian : Bool) : Nat := if endian then PR_ENDIAN else PR_NAME

/-- MAX_LEN 1024, prctlmodule.c line 85: "well more then maximum kernel
size (TASK_COMM_LEN)". -/
def MAX_LEN : Nat := 1024

/-- The kernel constant TASK_COMM_LEN, the size of the process-name
field, cited by the comment at prctlmodule.c line 85. -/
def TASK_COMM_LEN : Nat := 16

/-- struct table_entry, prctlmodule.c lines 60-65.  The `char *` fields
are `Option String`, a NULL pointer being `none`. -/
structure table_entry where
  name : Option String
  desc : Option String
  get : Int
  set : Int
deriving Repr, DecidableEq

/-- The NULL sentinel row terminating the table, prctlmodule.c line 99. -/
def sentinel : table_entry := ⟨none, none, 0, 0⟩

/-- _option_table, prctlmodule.c lines 87-100, the ENDIAN row present
exactly when the `#ifdef PR_ENDIAN` block is compiled in. -/
def _option_table (endian : Bool) : List table_entry :=
  [⟨some "PDEATHSIG", none, PR_GET_PDEATHSIG, PR_SET_PDEATHSIG⟩,
   ⟨some "DUMPABLE", none, PR_GET_DUMPABLE, PR_SET_DUMPABLE⟩,
   ⟨some "UNALIGN", none, PR_GET_UNALIGN, PR_SET_UNALIGN⟩,
   ⟨some "KEEPCAPS", none, PR_GET_KEEPCAPS, PR_SET_KEEPCAPS⟩,
   ⟨some "FPEMU", none, PR_GET_FPEMU, PR_SET_FPEMU⟩,
   ⟨some "FPEXC", none, PR_GET_FPEXC, PR_SET_FPEXC⟩,
   ⟨some "TIMING", none, PR_GET_TIMING, PR_SET_TIMING⟩,
   ⟨some "NAME", none, PR_GET_NAME, PR_SET_NAME⟩] ++
  (if endian then [⟨some "ENDIAN", none, PR_GET_ENDIAN, PR_SET_ENDIAN⟩] else []) ++
  [sentinel]

/-- The real (non-sentinel) rows of the table: the longest leading run
whose `name` pointer is non-NULL. -/
def real_entries (endian : Bool) : List table_entry :=
  (_option_table endian).takeWhile (fun e => e.name.isSome)

/-- A Python value as the C code discriminates it: a byte string
(PyString), a unicode string carried by its UTF-8 encoding (what
PyUnicode_AsUTF8String produces), a fixed-width integer (PyInt, holding
a C long), an arbitrary-precision integer (PyLong), or any other
object. -/
inductive PyValue where
  | str (bytes : List Nat)
  | unicode (utf8 : List Nat)
  | int (n : Int)
  | long (n : Int)
  | other
deriving Repr, DecidableEq

/-- The second argument of the `prctl` syscall: either an unsigned long
or a pointer to a NUL-terminated byte string. -/
inductive Arg where
  | int (n : Nat)
  | ptr (bytes : List Nat)
deriving Repr, DecidableEq

/-- One performed syscall: a get call records the option code and the
buffer contents passed in; a set call records the code and argument. -/
inductive SyscallEvent where
  | get (code : Int) (buf : List Nat)
  | set (code : Int) (arg : Arg)
deriving Repr, DecidableEq

/-- A successful Python-level return value: None, an int, or a byte
string. -/
inductive Ret where
  | none
  | int (n : Int)
  | str (bytes : List Nat)
deriving Repr, DecidableEq

/-- Outcome of a call: success, TypeError, ValueError, or
prctl.PrctlError carrying the platform errno. -/
inductive PyResult where
  | ok (v : Ret)
  | typeError (msg : String)
  | valueError (msg : String)
  | prctlError (errno : Nat)
deriving Repr, DecidableEq

/-- Oracle for the external `prctl` syscall and the errno mechanism.
A get call returns an int and may write bytes at the start of the
caller buffer; a set call returns an int.  errno is whatever the
platform reports after a failing call. -/
structure Kernel where
  getResult : Int → Int
  getErrno : Int → Nat
  getWritten : Int → List Nat
  setResult : Int → Arg → Int
  setErrno : Int → Arg → Nat

/-- Conversion of an already-fetched C signed integer value (a long or
long long, 64-bit on the target) to `unsigned long`: reduction mod
2^64.  This is the C integer conversion applied when assigning to the
`unsigned long arg`; it is not applied to unbounded Python integers
directly (see PyLong_AsLongLong below for how those are fetched). -/
def toULong (n : Int) : Nat := (n % (2 : Int) ^ 64).toNat

/-- PyLong_AsLongLong, as called at prctlmodule.c line 131: yields the
value of the Python long when it fits the signed 64-bit long long
range, and returns -1 otherwise.  In the out-of-range case it also sets
an OverflowError that the C code never checks: the code proceeds, so
the `unsigned long arg` becomes the cast of -1, that is 2^64 - 1. -/
def PyLong_AsLongLong (n : Int) : Int :=
  if -(2 ^ 63) ≤ n ∧ n < 2 ^ 63 then n else -1

/-- The buffer after the kernel wrote `written` over the start of
`buf`: written bytes (reduced to byte range) followed by the untouched
tail of `buf`. -/
def overlay (written buf : List Nat) : List Nat :=
  ((written.take buf.length).map (fun b => b % 256)) ++
    buf.drop (written.take buf.length).length

/-- First four buffer bytes read as a little-endian unsigned 32-bit
value: the load `*(int *)arg` at prctlmodule.c line 166. -/
def bytes_to_u32 (buf : List Nat) : Nat :=
  (buf.getD 0 0) % 256 + 256 * ((buf.getD 1 0) % 256) +
    65536 * ((buf.getD 2 0) % 256) + 16777216 * ((buf.getD 3 0) % 256)

/-- The signed 32-bit integer those four bytes represent. -/
def decode_int32 (buf : List Nat) : Int :=
  let u := bytes_to_u32 buf
  if u < 2 ^ 31 then (u : Int) else (u : Int) - 2 ^ 32

/-- The NUL-terminated string at the start of the buffer:
PyString_FromString at prctlmodule.c line 169. -/
def cstring (buf : List Nat) : List Nat := buf.takeWhile (fun b => b ≠ 0)

/-- The value is a Python text object (PyString or PyUnicode). -/
def isTextValue : PyValue → Bool
  | PyValue.str _ => true
  | PyValue.unicode _ => true
  | _ => false

/-- The value is a Python integer object (PyInt or PyLong). -/
def isIntValue : PyValue → Bool
  | PyValue.int _ => true
  | PyValue.long _ => true
  | _ => false

/-- The marshaling switch of _set_prctl, prctlmodule.c lines 107-137:
for PR_NAME a text value gives a pointer to its bytes; for every other
option a PyInt gives its C long value as an unsigned long, and a PyLong
goes through PyLong_AsLongLong (so an out-of-range PyLong becomes
2^64 - 1, the unchecked-overflow saturation); anything else is a type
error (`none`). -/
def marshal_value (option : Nat) (value : PyValue) : Option Arg :=
  if option = PR_NAME then
    match value with
    | PyValue.str s => some (Arg.ptr s)
    | PyValue.unicode s => some (Arg.ptr s)
    | _ => none
  else
    match value with
    | PyValue.int n => some (Arg.int (toULong n))
    | PyValue.long n => some (Arg.int (toULong (PyLong_AsLongLong n)))
    | _ => none

/-- _set_prctl, prctlmodule.c lines 102-148: marshal the value (TypeError
on mismatch, before any syscall), issue the set syscall with the table
row set code, PrctlError with errno on negative return, None on
success. -/
def _set_prctl (K : Kernel) (endian : Bool) (option : Nat) (value : PyValue) :
    PyResult × List SyscallEvent :=
  match marshal_value option value with
  | none => (PyResult.typeError "option/value type error", [])
  | some arg =>
    let entry := (_option_table endian).getD option sentinel
    let result := K.setResult entry.set arg
    if result < 0 then
      (PyResult.prctlError (K.setErrno entry.set arg), [SyscallEvent.set entry.set arg])
    else
      (PyResult.ok Ret.none, [SyscallEvent.set entry.set arg])

/-- _get_prctl, prctlmodule.c lines 150-177: zero a MAX_LEN buffer,
issue the get syscall with the table row get code and the buffer,
PrctlError with errno on negative return; on success PDEATHSIG decodes a
signed int from the buffer start, NAME decodes the NUL-terminated
string, every other option returns the raw syscall result. -/
def _get_prctl (K : Kernel) (endian : Bool) (option : Nat) :
    PyResult × List SyscallEvent :=
  let arg := List.replicate MAX_LEN 0
  let entry := (_option_table endian).getD option sentinel
  let ev := SyscallEvent.get entry.get arg
  let result := K.getResult entry.get
  if result < 0 then
    (PyResult.prctlError (K.getErrno entry.get), [ev])
  else
    let buf := overlay (K.getWritten entry.get) arg
    let output :=
      if option = PR_PDEATHSIG then Ret.int (decode_int32 buf)
      else if option = PR_NAME then Ret.str (cstring buf)
      else Ret.int result
    (PyResult.ok output, [ev])

/-- py_prctl, prctlmodule.c lines 179-196 (after argument parsing):
bounds-check the option index, then dispatch on the presence of the
optional value. -/
def py_prctl (K : Kernel) (endian : Bool) (option : Int) (value : Option PyValue) :
    PyResult × List SyscallEvent :=
  if option < (MIN_ENTRY : Int) ∨ option > (MAX_ENTRY endian : Int) then
    (PyResult.valueError "invalid option", [])
  else
    match value with
    | some v => _set_prctl K endian option.toNat v
    | none => _get_prctl K endian option.toNat

/-- The while loop of initprctl, prctlmodule.c lines 221-224: walk the
table from index 0 while the name is non-NULL, registering one integer
constant per row, named by the row name with the index as value. -/
def addConstants : List table_entry → Nat → List (String × Nat)
  | [], _ => []
  | e :: rest, i =>
    match e.name with
    | some nm => (nm, i) :: addConstants rest (i + 1)
    | none => []

/-- The integer constants the module exposes, per build configuration. -/
def module_constants (endian : Bool) : List (String × Nat) :=
  addConstants (_option_table endian) 0

/-- A kernel oracle whose calls all succeed, writing the bytes of a
4-byte little-endian 9 (and name "t") for use in witnesses. -/
def K0 : Kernel :=
  ⟨fun _ => 5, fun _ => 0, fun _ => [9, 0, 0, 0], fun _ _ => 0, fun _ _ => 0⟩

/-- A kernel oracle whose calls all fail with errno 13 (EACCES). -/
def Kfail : Kernel :=
  ⟨fun _ => -1, fun _ => 13, fun _ => [], fun _ _ => -1, fun _ _ => 13⟩

/-- C2: for every option index strictly below MIN_ENTRY or strictly above
MAX_ENTRY (the one-past-max sentinel index included), both the get call
(no value) and the set call (value present) fail with the invalid-option
ValueError, and no prctl syscall is performed. -/
theorem invalid_option_rejected (K : Kernel) (endian : Bool) (option : Int)
    (value : Option PyValue)
    (h : option < (MIN_ENTRY : Int) ∨ option > (MAX_ENTRY endian : Int)) :
    py_prctl K endian option value = (PyResult.valueError "invalid option", []) := by
  simp [py_prctl, h]

/-- Witness for C2 at the one-past-max sentinel index 9 of the
endian-enabled build, with a value present, and the kernel oracle K0. -/
theorem invalid_option_rejected_witness :
    ((9 : Int) < (MIN_ENTRY : Int) ∨ (9 : Int) > (MAX_ENTRY true : Int)) ∧
    py_prctl K0 true 9 (some (PyValue.int 1)) =
      (PyResult.valueError "invalid option", []) :=
  ⟨by decide, invalid_option_rejected K0 true 9 (some (PyValue.int 1)) (by decide)⟩

/-- C3: a set call whose value has an incompatible type (non-text for the
NAME option, non-integer for any other option) fails with the
type-mismatch TypeError before any prctl syscall is attempted. -/
theorem type_mismatch_rejected (K : Kernel) (endian : Bool) (option : Nat)
    (value : PyValue)
    (h : (option = PR_NAME ∧ isTextValue value = false) ∨
         (option ≠ PR_NAME ∧ isIntValue value = false)) :
    _set_prctl K endian option value =
      (PyResult.typeError "option/value type error", []) := by
  have hm : marshal_value option value = none := by
    rcases h with ⟨h1, h2⟩ | ⟨h1, h2⟩
    · cases value <;> simp_all [marshal_value, isTextValue]
    · cases value <;> simp_all [marshal_value, isIntValue]
  simp [_set_prctl, hm]

/-- Witness for C3: an integer value for the NAME option is rejected
without a syscall. -/
theorem type_mismatch_rejected_witness :
    ((PR_NAME = PR_NAME ∧ isTextValue (PyValue.int 3) = false) ∨
     (PR_NAME ≠ PR_NAME ∧ isIntValue (PyValue.int 3) = false)) ∧
    _set_prctl K0 false PR_NAME (PyValue.int 3) =
      (PyResult.typeError "option/value type error", []) :=
  ⟨by decide, type_mismatch_rejected K0 false PR_NAME (PyValue.int 3) (by decide)⟩

/-- C7: for a valid option, the single entry point dispatches solely on
the presence of the value argument: with a value it invokes the set
operation, without one the get operation. -/
theorem dispatch_on_value_presence (K : Kernel) (endian : Bool) (option : Int)
    (v : PyValue)
    (h0 : (MIN_ENTRY : Int) ≤ option) (h1 : option ≤ (MAX_ENTRY endian : Int)) :
    py_prctl K endian option (some v) = _set_prctl K endian option.toNat v ∧
    py_prctl K endian option none = _get_prctl K endian option.toNat := by
  have hc : ¬ (option < (MIN_ENTRY : Int) ∨ option > (MAX_ENTRY endian : Int)) := by
    push_neg
    exact ⟨h0, h1⟩
  constructor <;> simp [py_prctl, hc]

/-- Witness for C7 at option DUMPABLE = 1 on the build without ENDIAN. -/
theorem dispatch_on_value_presence_witness :
    ((MIN_ENTRY : Int) ≤ 1 ∧ (1 : Int) ≤ (MAX_ENTRY false : Int)) ∧
    (py_prctl K0 false 1 (some (PyValue.int 0)) =
       _set_prctl K0 false (1 : Int).toNat (PyValue.int 0) ∧
     py_prctl K0 false 1 none = _get_prctl K0 false (1 : Int).toNat) :=
  ⟨⟨by decide, by decide⟩,
   dispatch_on_value_presence K0 false 1 (PyValue.int 0) (by decide) (by decide)⟩

/-- C9: a set call on a valid option whose syscall returns a non-negative
value succeeds and returns None (no data is produced by a successful
set). -/
theorem set_success_returns_none (K : Kernel) (endian : Bool) (option : Nat)
    (value : PyValue) (a : Arg)
    (hopt : option ≤ MAX_ENTRY endian)
    (hm : marshal_value option value = some a)
    (hres : 0 ≤ K.setResult ((_option_table endian).getD option sentinel).set a) :
    _set_prctl K endian option value =
      (PyResult.ok Ret.none,
       [SyscallEvent.set ((_option_table endian).getD option sentinel).set a]) := by
  simp [_set_prctl, hm]
  simpa using hres

/-- Witness for C9: setting KEEPCAPS = 3 to 1 under the all-succeeding
kernel oracle returns None. -/
theorem set_success_returns_none_witness :
    (PR_KEEPCAPS ≤ MAX_ENTRY false ∧
     marshal_value PR_KEEPCAPS (PyValue.int 1) = some (Arg.int 1) ∧
     0 ≤ K0.setResult ((_option_table false).getD PR_KEEPCAPS sentinel).set
           (Arg.int 1)) ∧
    _set_prctl K0 false PR_KEEPCAPS (PyValue.int 1) =
      (PyResult.ok Ret.none,
       [SyscallEvent.set ((_option_table false).getD PR_KEEPCAPS sentinel).set
          (Arg.int 1)]) :=
  ⟨⟨by decide, by decide, by decide⟩,
   set_success_returns_none K0 false PR_KEEPCAPS (PyValue.int 1) (Arg.int 1)
     (by decide) (by decide) (by decide)⟩

/-- C1: for every valid option, a successful get call decodes per the
per-option policy: PDEATHSIG decodes a signed integer from the first
bytes of the zero-initialized buffer (as overwritten by the kernel),
NAME decodes the NUL-terminated string from the buffer, and every other
option returns the raw integer result of the syscall itself, not the
buffer contents. -/
theorem get_decode_policy (K : Kernel) (endian : Bool) (option : Nat)
    (hopt : option ≤ MAX_ENTRY endian)
    (hres : 0 ≤ K.getResult ((_option_table endian).getD option sentinel).get) :
    (option = PR_PDEATHSIG →
      (_get_prctl K endian option).1 = PyResult.ok (Ret.int (decode_int32
        (overlay (K.getWritten ((_option_table endian).getD option sentinel).get)
          (List.replicate MAX_LEN 0))))) ∧
    (option = PR_NAME →
      (_get_prctl K endian option).1 = PyResult.ok (Ret.str (cstring
        (overlay (K.getWritten ((_option_table endian).getD option sentinel).get)
          (List.replicate MAX_LEN 0))))) ∧
    (option ≠ PR_PDEATHSIG → option ≠ PR_NAME →
      (_get_prctl K endian option).1 =
        PyResult.ok (Ret.int
          (K.getResult ((_option_table endian).getD option sentinel).get))) := by
  refine ⟨?_, ?_, ?_⟩
  · intro h
    subst h
    simp_all [_get_prctl, PR_PDEATHSIG, PR_NAME]
    rw [if_neg (not_lt.mpr hres)]
  · intro h
    subst h
    simp_all [_get_prctl, PR_PDEATHSIG, PR_NAME]
    rw [if_neg (not_lt.mpr hres)]
  · intro h1 h2
    simp_all [_get_prctl, h1, h2]
    rw [if_neg (not_lt.mpr hres)]

/-- Witness for C1: getting PDEATHSIG under the kernel oracle K0 decodes
the signed integer from the buffer bytes K0 wrote. -/
theorem get_decode_policy_witness :
    (PR_PDEATHSIG ≤ MAX_ENTRY false ∧
     0 ≤ K0.getResult ((_option_table false).getD PR_PDEATHSIG sentinel).get) ∧
    (_get_prctl K0 false PR_PDEATHSIG).1 = PyResult.ok (Ret.int (decode_int32
      (overlay (K0.getWritten ((_option_table false).getD PR_PDEATHSIG sentinel).get)
        (List.replicate MAX_LEN 0)))) :=
  ⟨⟨by decide, by decide⟩,
   (get_decode_policy K0 false PR_PDEATHSIG (by decide) (by decide)).1 rfl⟩

/-- C4: on both the get path and the set path, a negative syscall return
fails the call with a PrctlError carrying exactly the platform errno,
with exactly one syscall performed (never retried or swallowed). -/
theorem syscall_error_propagated (K : Kernel) (endian : Bool) (option : Nat)
    (value : PyValue) (a : Arg)
    (hopt : option ≤ MAX_ENTRY endian)
    (hm : marshal_value option value = some a)
    (hg : K.getResult ((_option_table endian).getD option sentinel).get < 0)
    (hs : K.setResult ((_option_table endian).getD option sentinel).set a < 0) :
    _get_prctl K endian option =
      (PyResult.prctlError
         (K.getErrno ((_option_table endian).getD option sentinel).get),
       [SyscallEvent.get ((_option_table endian).getD option sentinel).get
          (List.replicate MAX_LEN 0)]) ∧
    _set_prctl K endian option value =
      (PyResult.prctlError
         (K.setErrno ((_option_table endian).getD option sentinel).set a),
       [SyscallEvent.set ((_option_table endian).getD option sentinel).set a]) := by
  constructor
  · simp_all [_get_prctl]
  · simp_all [_set_prctl]

/-- Witness for C4: under the all-failing kernel oracle Kfail (errno 13),
both paths at option DUMPABLE surface PrctlError 13. -/
theorem syscall_error_propagated_witness :
    (PR_DUMPABLE ≤ MAX_ENTRY false ∧
     marshal_value PR_DUMPABLE (PyValue.int 1) = some (Arg.int 1) ∧
     Kfail.getResult ((_option_table false).getD PR_DUMPABLE sentinel).get < 0 ∧
     Kfail.setResult ((_option_table false).getD PR_DUMPABLE sentinel).set
       (Arg.int 1) < 0) ∧
    (_get_prctl Kfail false PR_DUMPABLE =
       (PyResult.prctlError
          (Kfail.getErrno ((_option_table false).getD PR_DUMPABLE sentinel).get),
        [SyscallEvent.get ((_option_table false).getD PR_DUMPABLE sentinel).get
           (List.replicate MAX_LEN 0)]) ∧
     _set_prctl Kfail false PR_DUMPABLE (PyValue.int 1) =
       (PyResult.prctlError
          (Kfail.setErrno ((_option_table false).getD PR_DUMPABLE sentinel).set
             (Arg.int 1)),
        [SyscallEvent.set ((_option_table false).getD PR_DUMPABLE sentinel).set
           (Arg.int 1)])) :=
  ⟨⟨by decide, by decide, by decide, by decide⟩,
   syscall_error_propagated Kfail false PR_DUMPABLE (PyValue.int 1) (Arg.int 1)
     (by decide) (by decide) (by decide) (by decide)⟩

/-- Counterexample to C5 as stated: setting DUMPABLE to the PyLong
2^64 + 5 does not pass that value narrowed mod 2^64 (which would be 5);
the program saturates the unchecked PyLong_AsLongLong overflow to -1
and passes 2^64 - 1 to the syscall. -/
theorem set_long_wrap_counterexample :
    (_set_prctl K0 false PR_DUMPABLE (PyValue.long (2 ^ 64 + 5))).2 =
      [SyscallEvent.set ((_option_table false).getD PR_DUMPABLE sentinel).set
         (Arg.int (2 ^ 64 - 1))] ∧
    ¬ (_set_prctl K0 false PR_DUMPABLE (PyValue.long (2 ^ 64 + 5))).2 =
      [SyscallEvent.set ((_option_table false).getD PR_DUMPABLE sentinel).set
         (Arg.int (toULong (2 ^ 64 + 5)))] := by
  decide

/-- C5 (amended): a set call on a non-NAME option accepts both
fixed-width (PyInt) and arbitrary-precision (PyLong) integers.  A PyInt
value, and a PyLong value within the signed 64-bit range, is converted
to the unsigned-long width of the syscall argument and passed directly;
a PyLong outside that range is saturated to 2^64 - 1 (the unsigned-long
cast of the -1 that PyLong_AsLongLong returns on overflow, its
OverflowError left unchecked) and that saturated value is passed to the
syscall.  Any non-integer value fails with the type-mismatch error
before the syscall is attempted. -/
theorem set_int_marshal (K : Kernel) (endian : Bool) (option : Nat) (v : PyValue)
    (hopt : option ≤ MAX_ENTRY endian) (hname : option ≠ PR_NAME) :
    (∀ n : Int, v = PyValue.int n →
      (_set_prctl K endian option v).2 =
        [SyscallEvent.set ((_option_table endian).getD option sentinel).set
           (Arg.int (toULong n))]) ∧
    (∀ n : Int, v = PyValue.long n → -(2 ^ 63) ≤ n → n < 2 ^ 63 →
      (_set_prctl K endian option v).2 =
        [SyscallEvent.set ((_option_table endian).getD option sentinel).set
           (Arg.int (toULong n))]) ∧
    (∀ n : Int, v = PyValue.long n → (n < -(2 ^ 63) ∨ 2 ^ 63 ≤ n) →
      (_set_prctl K endian option v).2 =
        [SyscallEvent.set ((_option_table endian).getD option sentinel).set
           (Arg.int (2 ^ 64 - 1))]) ∧
    (isIntValue v = false →
      _set_prctl K endian option v =
        (PyResult.typeError "option/value type error", [])) := by
  refine ⟨?_, ?_, ?_, ?_⟩
  · rintro n rfl
    simp [_set_prctl, marshal_value, hname]
    split <;> simp
  · rintro n rfl h1 h2
    have hfit : PyLong_AsLongLong n = n := by
      unfold PyLong_AsLongLong
      rw [if_pos ⟨h1, h2⟩]
    simp [_set_prctl, marshal_value, hname, hfit]
    split <;> simp
  · rintro n rfl h
    have hsat : PyLong_AsLongLong n = -1 := by
      have hcon : ¬ (-(2 ^ 63) ≤ n ∧ n < 2 ^ 63) := by omega
      unfold PyLong_AsLongLong
      rw [if_neg hcon]
    have hneg : toULong (-1) = 2 ^ 64 - 1 := by decide
    simp [_set_prctl, marshal_value, hname, hsat, hneg]
    split <;> simp
  · intro hv
    have hm : marshal_value option v = none := by
      cases v <;> simp_all [marshal_value, isIntValue]
    simp [_set_prctl, hm]

/-- Witness for the amended C5: setting DUMPABLE to the out-of-range
PyLong 2^64 + 5 passes the saturated argument 2^64 - 1. -/
theorem set_int_marshal_witness :
    (PR_DUMPABLE ≤ MAX_ENTRY false ∧ PR_DUMPABLE ≠ PR_NAME) ∧
    (_set_prctl K0 false PR_DUMPABLE (PyValue.long (2 ^ 64 + 5))).2 =
      [SyscallEvent.set ((_option_table false).getD PR_DUMPABLE sentinel).set
         (Arg.int (2 ^ 64 - 1))] :=
  ⟨⟨by decide, by decide⟩,
   (set_int_marshal K0 false PR_DUMPABLE (PyValue.long (2 ^ 64 + 5))
      (by decide) (by decide)).2.2.1 (2 ^ 64 + 5) rfl (by decide)⟩

/-- C6: the module exposes one named integer constant per option-table
entry, whose value is exactly that entry's table index (for both build
configurations). -/
theorem constants_are_table_indices (endian : Bool) :
    module_constants endian =
      (List.range (MAX_ENTRY endian + 1)).map
        (fun i => ((((_option_table endian).getD i sentinel).name).getD "", i)) := by
  cases endian <;> rfl

/-- C8: every get call passes the syscall the table entry get-code and a
buffer of size MAX_LEN, fully zero-initialized, with MAX_LEN exceeding
the kernel process-name length TASK_COMM_LEN. -/
theorem get_buffer_discipline (K : Kernel) (endian : Bool) (option : Nat)
    (hopt : option ≤ MAX_ENTRY endian) :
    (_get_prctl K endian option).2 =
      [SyscallEvent.get ((_option_table endian).getD option sentinel).get
         (List.replicate MAX_LEN 0)] ∧
    TASK_COMM_LEN < MAX_LEN ∧
    (List.replicate MAX_LEN 0).length = MAX_LEN ∧
    (∀ b ∈ List.replicate MAX_LEN 0, b = 0) := by
  refine ⟨?_, by decide, by simp, fun b hb => List.eq_of_mem_replicate hb⟩
  simp [_get_prctl]
  split <;> simp

/-- Witness for C8 at the NAME option on the build without ENDIAN. -/
theorem get_buffer_discipline_witness :
    PR_NAME ≤ MAX_ENTRY false ∧
    (_get_prctl K0 false PR_NAME).2 =
      [SyscallEvent.get ((_option_table false).getD PR_NAME sentinel).get
         (List.replicate MAX_LEN 0)] :=
  ⟨by decide, (get_buffer_discipline K0 false PR_NAME (by decide)).1⟩

/-- C10: the static table holds exactly MAX_ENTRY - MIN_ENTRY + 1 real
entries before its NULL sentinel, every index passing the bounds check
reads a populated (non-sentinel) entry, and the one-past-max index is
the sentinel. -/
theorem table_bounds_safety (endian : Bool) :
    (real_entries endian).length = MAX_ENTRY endian - MIN_ENTRY + 1 ∧
    (_option_table endian).length = (MAX_ENTRY endian - MIN_ENTRY + 1) + 1 ∧
    (∀ i, i ≤ MAX_ENTRY endian →
      (((_option_table endian).getD i sentinel).name).isSome = true) ∧
    (_option_table endian).getD (MAX_ENTRY endian + 1) sentinel = sentinel := by
  cases endian <;> exact ⟨by decide, by decide, by decide, by decide⟩

/-- Witness for C10: the last in-bounds index of the endian-enabled build
reads a populated row. -/
theorem table_bounds_safety_witness :
    PR_ENDIAN ≤ MAX_ENTRY true ∧
    (((_option_table true).getD PR_ENDIAN sentinel).name).isSome = true :=
  ⟨by decide, (table_bounds_safety true).2.2.1 PR_ENDIAN (by decide)⟩

end Prctl
